import Mathlib

/-!
Shallow embedding of the API-client layer of the nutrition-tracking
repository: the SwiftUI client (AINUT/Services/NetworkManager.swift,
AINUT/Models/Models.swift, views in unnamed parts) and the React Native
client (src/config/api.js, src/screens/FoodLogScreen.js, the meal-analysis
screen in unnamed part_001).

JSON documents are modelled by an inductive value type.  Numeric JSON
values are modelled as integers: every number the verified claims touch is
an HTTP status code or an exact sum over an empty list, so no fractional
value ever arises.  A response body is an `Option Json`: `none` stands for
bytes that are not valid JSON.  The network itself is an explicit
parameter (a transport outcome per request), so each client function is a
pure function of its inputs and of the outcome the network would give.
-/

namespace NutClient

/-- A JSON value, as produced by JSONDecoder (Swift) or response.json()
(React Native).  Object fields are an association list in document order. -/
inductive Json where
  | str (s : String)
  | num (n : Int)
  | bool (b : Bool)
  | null
  | arr (elems : List Json)
  | obj (fields : List (String × Json))

/-- Field access on a JSON object association list (first match). -/
def lookupField : List (String × Json) → String → Option Json
  | [], _ => none
  | (k, v) :: rest, key => if k = key then some v else lookupField rest key

def asString : Json → Option String
  | .str s => some s
  | _ => none

def asInt : Json → Option Int
  | .num n => some n
  | _ => none

def asBool : Json → Option Bool
  | .bool b => some b
  | _ => none

/-! JavaScript value semantics used by the React Native client. -/

/-- JavaScript truthiness of a JSON value ("" , 0, false, null are falsy). -/
def jsTruthy : Json → Bool
  | .str s => !(s == "")
  | .num n => !(n == 0)
  | .bool b => b
  | .null => false
  | .arr _ => true
  | .obj _ => true

mutual

/-- JavaScript String() coercion of a JSON value, as applied by
new Error(v) to a non-string v.  Arrays stringify as their elements
joined with commas, null elements contributing the empty string. -/
def jsToString : Json → String
  | .str s => s
  | .num n => toString n
  | .bool b => if b then "true" else "false"
  | .null => "null"
  | .obj _ => "[object Object]"
  | .arr xs => jsJoin xs

/-- Array.prototype.toString: elements joined with commas, a null element
contributing the empty string. -/
def jsJoin : List Json → String
  | [] => ""
  | [.null] => ""
  | [x] => jsToString x
  | .null :: y :: xs => "," ++ jsJoin (y :: xs)
  | x :: y :: xs => jsToString x ++ "," ++ jsJoin (y :: xs)

end

/-- Property access data.detail of the React Native error path: defined on
objects, undefined (none) on every other value. -/
def jsDetailProp : Json → Option Json
  | .obj fs => lookupField fs "detail"
  | _ => none

/-! Swift Codable decoders (AINUT/Models/Models.swift).  Each mirrors the
CodingKeys of its struct: decoding succeeds exactly when the body is a
JSON object carrying every non-optional key with a value of the right
type; extra keys are ignored, as JSONDecoder does. -/

structure User where
  id : Int
  username : String
  email : String
  isActive : Bool
  createdAt : String
deriving DecidableEq

def decodeUser : Option Json → Option User
  | some (.obj fs) => do
      let id ← lookupField fs "id" >>= asInt
      let username ← lookupField fs "username" >>= asString
      let email ← lookupField fs "email" >>= asString
      let isActive ← lookupField fs "is_active" >>= asBool
      let createdAt ← lookupField fs "created_at" >>= asString
      pure ⟨id, username, email, isActive, createdAt⟩
  | _ => none

structure Token where
  accessToken : String
  tokenType : String
deriving DecidableEq

def decodeToken : Option Json → Option Token
  | some (.obj fs) => do
      let accessToken ← lookupField fs "access_token" >>= asString
      let tokenType ← lookupField fs "token_type" >>= asString
      pure ⟨accessToken, tokenType⟩
  | _ => none

/-- Decoding of struct APIError (a single required String field detail),
attempted on every non-2xx body by performRequest. -/
def decodeDetail : Option Json → Option String
  | some (.obj fs) => lookupField fs "detail" >>= asString
  | _ => none

structure AchievementResponse where
  name : String
  description : String
  points : Int
  badge : String
deriving DecidableEq

def decodeAchievementResponse : Json → Option AchievementResponse
  | .obj fs => do
      let name ← lookupField fs "name" >>= asString
      let description ← lookupField fs "description" >>= asString
      let points ← lookupField fs "points" >>= asInt
      let badge ← lookupField fs "badge" >>= asString
      pure ⟨name, description, points, badge⟩
  | _ => none

def decodeAchievementList : List Json → Option (List AchievementResponse)
  | [] => some []
  | x :: xs => do
      let a ← decodeAchievementResponse x
      let rest ← decodeAchievementList xs
      pure (a :: rest)

structure SaveFoodLogResponse where
  message : String
  logId : String
  achievements : List AchievementResponse
deriving DecidableEq

def decodeSaveFoodLogResponse : Option Json → Option SaveFoodLogResponse
  | some (.obj fs) => do
      let message ← lookupField fs "message" >>= asString
      let logId ← lookupField fs "log_id" >>= asString
      let achievements ←
        match lookupField fs "achievements" with
        | some (.arr xs) => decodeAchievementList xs
        | _ => none
      pure ⟨message, logId, achievements⟩
  | _ => none

/-- Decoding a body as Swift [String: String], used by uploadImage:
succeeds exactly when the body is a JSON object all of whose values are
strings. -/
def decodeStringPairs : List (String × Json) → Option (List (String × String))
  | [] => some []
  | (k, .str v) :: rest => (decodeStringPairs rest).map (fun r => (k, v) :: r)
  | _ => none

def decodeStringMap : Option Json → Option (List (String × String))
  | some (.obj fs) => decodeStringPairs fs
  | _ => none

def lookupStr : List (String × String) → String → Option String
  | [], _ => none
  | (k, v) :: rest, key => if k = key then some v else lookupStr rest key

/-! The Swift request layer (NetworkManager.performRequest and
NetworkManager.uploadImage). -/

/-- Outcome of handing a built URLRequest to URLSession.shared.data. -/
inductive Transport where
  | throws
  | nonHTTP
  | http (statusCode : Nat) (body : Option Json)

/-- enum NetworkError of NetworkManager.swift. -/
inductive NetworkError where
  | invalidURL
  | notAuthenticated
  | invalidResponse
  | serverError (code : Nat)
  | apiError (message : String)
deriving DecidableEq

/-- errorDescription of NetworkError (LocalizedError conformance). -/
def NetworkError.errorDescription : NetworkError → String
  | .invalidURL => "Invalid URL"
  | .notAuthenticated => "Not authenticated"
  | .invalidResponse => "Invalid response"
  | .serverError code => "Server error: " ++ toString code
  | .apiError message => message

/-- An error escaping a NetworkManager request method: either one of its
own NetworkError values, or an error propagated from URLSession, or a
DecodingError from JSONDecoder on a success body. -/
inductive SwiftError where
  | network (e : NetworkError)
  | urlSession
  | decoding
deriving DecidableEq

/-- error.localizedDescription as read by the views.  The platform
descriptions of URLError and DecodingError are abstracted by fixed
placeholder strings; no claim depends on them. -/
def SwiftError.localizedDescription : SwiftError → String
  | .network e => e.errorDescription
  | .urlSession => "URLSession transport error"
  | .decoding => "JSON decoding error"

/-- The request that performRequest hands to URLSession, as far as the
claims observe it: endpoint, method, Content-Type, Authorization. -/
structure SentRequest where
  endpoint : String
  method : String
  contentType : String
  authHeader : Option String
deriving DecidableEq

/-- Result of one request method: the value returned or error thrown, and
the request given to URLSession (none when the method threw before any
network call). -/
structure PerformResult (U : Type) where
  result : Except SwiftError U
  sent : Option SentRequest

/-- The shared response handling of performRequest after the request was
sent: 200/201 decode the expected shape, any other status tries the
APIError body first and falls back to serverError(status). -/
def handleResponse {U : Type} (decode : Option Json → Option U)
    (req : SentRequest) (net : Transport) : PerformResult U :=
  match net with
  | .throws => ⟨.error .urlSession, some req⟩
  | .nonHTTP => ⟨.error (.network .invalidResponse), some req⟩
  | .http statusCode body =>
      if statusCode = 200 ∨ statusCode = 201 then
        match decode body with
        | some u => ⟨.ok u, some req⟩
        | none => ⟨.error .decoding, some req⟩
      else
        match decodeDetail body with
        | some detail => ⟨.error (.network (.apiError detail)), some req⟩
        | none => ⟨.error (.network (.serverError statusCode)), some req⟩

/-- NetworkManager.performRequest.  URL construction from the constant
baseURL and an endpoint path never fails for the endpoints of this app, so
the invalidURL guard is not reachable here.  When requiresAuth holds and
no token is stored the method throws notAuthenticated before URLSession is
ever called; otherwise the Authorization header is attached exactly when
requiresAuth holds. -/
def performRequest {U : Type} (endpoint method : String)
    (decode : Option Json → Option U) (requiresAuth : Bool)
    (authToken : Option String) (net : Transport) : PerformResult U :=
  if requiresAuth then
    match authToken with
    | none => ⟨.error (.network .notAuthenticated), none⟩
    | some token =>
        handleResponse decode
          ⟨endpoint, method, "application/json", some ("Bearer " ++ token)⟩ net
  else
    handleResponse decode ⟨endpoint, method, "application/json", none⟩ net

/-- NetworkManager.uploadImage: guards the token, posts multipart data,
accepts exactly status 200, decodes the body as [String: String] and
returns its url value or the empty string when that key is absent; every
other status yields serverError(status). -/
def uploadImage (authToken : Option String) (net : Transport) :
    PerformResult String :=
  match authToken with
  | none => ⟨.error (.network .notAuthenticated), none⟩
  | some token =>
      let req : SentRequest :=
        ⟨"/upload-user-image", "POST", "multipart/form-data",
          some ("Bearer " ++ token)⟩
      match net with
      | .throws => ⟨.error .urlSession, some req⟩
      | .nonHTTP => ⟨.error (.network .invalidResponse), some req⟩
      | .http statusCode body =>
          if statusCode = 200 then
            match decodeStringMap body with
            | some m => ⟨.ok ((lookupStr m "url").getD ""), some req⟩
            | none => ⟨.error .decoding, some req⟩
          else ⟨.error (.network (.serverError statusCode)), some req⟩

/-- Whether an Except value is a success. -/
def exceptOk {ε α : Type} : Except ε α → Bool
  | .ok _ => true
  | .error _ => false

/-! The NetworkManager observable state and its operations.  Each async
operation becomes a state transition parameterised by the transport
outcome of every network call it makes. -/

/-- The published state of NetworkManager plus the token it keeps in
UserDefaults under the key auth_token. -/
structure NMState where
  authToken : Option String
  isAuthenticated : Bool
  currentUser : Option User
  errorMessage : Option String
  isLoading : Bool
deriving DecidableEq

/-- NetworkManager.logout. -/
def logout (s : NMState) : NMState :=
  { s with authToken := none, isAuthenticated := false, currentUser := none }

/-- NetworkManager.getCurrentUser: GET /auth/me with auth; on success the
decoded user is stored, on any failure the catch block calls logout. -/
def getCurrentUser (meNet : Transport) (s : NMState) : NMState :=
  match (performRequest "/auth/me" "GET" decodeUser true s.authToken meNet).result with
  | .ok u => { s with currentUser := some u }
  | .error _ => logout s

/-- NetworkManager.login: POST /auth/login without auth; on success the
access token is stored, isAuthenticated is set, and getCurrentUser runs;
on failure only errorMessage is set.  username and password travel in the
request body and do not influence the state transition. -/
def login (username password : String) (loginNet meNet : Transport)
    (s : NMState) : NMState :=
  let s1 := { s with isLoading := true, errorMessage := none }
  match (performRequest "/auth/login" "POST" decodeToken false s1.authToken loginNet).result with
  | .ok tok =>
      let s2 := { s1 with authToken := some tok.accessToken, isAuthenticated := true }
      let s3 := getCurrentUser meNet s2
      { s3 with isLoading := false }
  | .error e =>
      { s1 with errorMessage := some e.localizedDescription, isLoading := false }

/-- NetworkManager.register: POST /auth/register without auth, then on
success a full login with the same credentials. -/
def registerUser (username email password : String)
    (regNet loginNet meNet : Transport) (s : NMState) : NMState :=
  let s1 := { s with isLoading := true, errorMessage := none }
  match (performRequest "/auth/register" "POST" decodeUser false s1.authToken regNet).result with
  | .ok _ =>
      let s2 := login username password loginNet meNet s1
      { s2 with isLoading := false }
  | .error e =>
      { s1 with errorMessage := some e.localizedDescription, isLoading := false }

/-- NetworkManager.checkAuthStatus: isAuthenticated is recomputed from
token presence, and when it holds the spawned task runs getCurrentUser. -/
def checkAuthStatus (meNet : Transport) (s : NMState) : NMState :=
  let s1 := { s with isAuthenticated := s.authToken.isSome }
  if s1.isAuthenticated then getCurrentUser meNet s1 else s1

/-- NetworkManager.init (the published properties start at their declared
defaults, the token comes from UserDefaults) followed by the
checkAuthStatus it performs. -/
def initState (storedToken : Option String) (meNet : Transport) : NMState :=
  checkAuthStatus meNet ⟨storedToken, false, none, none, false⟩

/-- NetworkManager.saveFoodLog: guards currentUser, then POST /food-logs
with auth.  It mutates no NetworkManager state: it returns the decoded
response or throws. -/
def saveFoodLog (net : Transport) (s : NMState) :
    Except SwiftError SaveFoodLogResponse :=
  match s.currentUser with
  | none => .error (.network .notAuthenticated)
  | some _ => (performRequest "/food-logs" "POST" decodeSaveFoodLogResponse true s.authToken net).result

/-- The catch branch of saveMeal in MealAnalysisView (SwiftUI): the
message shown for a failed save. -/
def swiftSaveMealErrorMessage (e : SwiftError) : String :=
  "Failed to save meal: " ++ e.localizedDescription

/-! The React Native request layer (src/config/api.js) and the screens
the claims cite. -/

/-- Outcome of fetch: a rejection, or a response with a status and a body
(none when response.json() would throw on invalid JSON). -/
inductive JSOutcome where
  | reject
  | resp (status : Nat) (body : Option Json)

/-- An error thrown out of apiRequest: the fetch rejection, the
response.json() failure, or the Error built on a non-ok status. -/
inductive JSError where
  | networkFailure
  | jsonError
  | thrown (message : String)
deriving DecidableEq

/-- fetch Response.ok: status in the range 200..299. -/
def respOk (status : Nat) : Bool :=
  200 ≤ status && status ≤ 299

/-- apiRequest of src/config/api.js: fetch, then response.json() (before
the ok check, so an invalid-JSON body fails every call), then on non-ok
throw new Error(data.detail || the fixed fallback message).  The merged
headers (Content-Type plus caller headers such as Authorization) do not
influence this outcome and are carried only by the fetch request itself.
Property access on a JSON null body is modelled as undefined; no claim
exercises that corner. -/
def apiRequest (endpoint : String) (authHeader : Option String)
    (out : JSOutcome) : Except JSError Json :=
  match out with
  | .reject => .error .networkFailure
  | .resp status body =>
      match body with
      | none => .error .jsonError
      | some data =>
          if respOk status then .ok data
          else
            match jsDetailProp data with
            | some v =>
                if jsTruthy v then .error (.thrown (jsToString v))
                else .error (.thrown "API request failed")
            | none => .error (.thrown "API request failed")

/-- The FoodLogScreen state the claims observe: the foodLogs value (set
verbatim from the response) and the loading flag. -/
structure FoodLogScreenState where
  foodLogs : Json
  loading : Bool

/-- FoodLogScreen initial state: useState([]) and useState(true). -/
def foodLogScreenInit : FoodLogScreenState :=
  ⟨.arr [], true⟩

/-- FoodLogScreen.loadFoodLogs: GET the food logs for the selected date
with the Authorization header; on success the response replaces foodLogs,
on error only the console sees it; finally loading is cleared. -/
def loadFoodLogs (username dateString : String) (token : String)
    (out : JSOutcome) (s : FoodLogScreenState) : FoodLogScreenState :=
  match apiRequest
      ("/users/" ++ username ++ "/food-logs?date_filter=" ++ dateString ++ "&limit=50")
      (some ("Bearer " ++ token)) out with
  | .ok response => { foodLogs := response, loading := false }
  | .error _ => { s with loading := false }

/-- totalCalories of FoodLogScreen: foodLogs.reduce summing
log.total_calories.  none marks the cases where the JavaScript expression
would not denote an exact integer (a non-array value or an entry without
an integer total_calories). -/
def totalCalories : Json → Option Int
  | .arr logs =>
      logs.foldl
        (fun acc l => do
          let a ← acc
          let c ←
            match l with
            | .obj fs => lookupField fs "total_calories" >>= asInt
            | _ => none
          pure (a + c))
        (some 0)
  | _ => none

/-- mealCount of FoodLogScreen: foodLogs.length. -/
def mealCount : Json → Option Nat
  | .arr logs => some logs.length
  | _ => none

/-- The MealAnalysisScreen state touched by saveMeal (unnamed part_001):
the selected image uri, the free-text input, the analysis result held for
saving, and the save-options flag. -/
structure MealScreenState where
  selectedImage : Option String
  userInput : String
  mealResult : Option Json
  showSaveOptions : Bool

/-- An Alert.alert call: title and message. -/
structure AlertMsg where
  title : String
  message : String
deriving DecidableEq

/-- saveMeal of the React Native meal-analysis screen: returns without
effect when no result is held; otherwise POST /food-logs, on success a
Success alert and a full form reset, on any error the fixed
Failed-to-save alert with the screen state untouched. -/
def saveMeal (token : String) (mealType : String) (st : MealScreenState)
    (out : JSOutcome) : MealScreenState × Option AlertMsg :=
  match st.mealResult with
  | none => (st, none)
  | some _ =>
      match apiRequest "/food-logs" (some ("Bearer " ++ token)) out with
      | .ok _ =>
          (⟨none, "", none, false⟩,
            some ⟨"Success", "Meal saved to your food log!"⟩)
      | .error _ => (st, some ⟨"Error", "Failed to save meal"⟩)

/-! Helper lemmas shared by several claims. -/

/-- When the GET /auth/me call with the stored token succeeds,
getCurrentUser only fills currentUser: token and flag are untouched. -/
lemma getCurrentUser_ok_fields (meNet : Transport) (s : NMState)
    (h : exceptOk (performRequest "/auth/me" "GET" decodeUser true s.authToken meNet).result = true) :
    (getCurrentUser meNet s).authToken = s.authToken
      ∧ (getCurrentUser meNet s).isAuthenticated = s.isAuthenticated := by
  unfold getCurrentUser
  rcases hres : (performRequest "/auth/me" "GET" decodeUser true s.authToken meNet).result with e | u
  · rw [hres] at h
    simp [exceptOk] at h
  · simp [hres]

/-- Success criterion of the shared Swift response handling: 200 or 201
together with a decodable body. -/
lemma handleResponse_ok_iff {U : Type} (decode : Option Json → Option U)
    (req : SentRequest) (status : Nat) (body : Option Json) :
    exceptOk (handleResponse decode req (.http status body)).result = true
      ↔ ((status = 200 ∨ status = 201) ∧ (decode body).isSome = true) := by
  unfold handleResponse
  by_cases hs : status = 200 ∨ status = 201
  · simp only [if_pos hs]
    rcases hdec : decode body with _ | u <;> simp [hdec, exceptOk, hs]
  · simp only [if_neg hs]
    rcases hdet : decodeDetail body with _ | d <;> simp [hdet, exceptOk, hs]

/-- Success criterion of uploadImage on an HTTP response: exactly 200
with a body decodable as a string map. -/
lemma uploadImage_ok_iff (t : String) (status : Nat) (body : Option Json) :
    exceptOk (uploadImage (some t) (.http status body)).result = true
      ↔ (status = 200 ∧ (decodeStringMap body).isSome = true) := by
  unfold uploadImage
  by_cases hs : status = 200
  · simp only [hs, if_pos rfl]
    rcases hdec : decodeStringMap body with _ | m <;> simp [hdec, exceptOk]
  · simp [hs, exceptOk]

/-- Success criterion of the React Native apiRequest: an ok status with a
JSON-parsable body. -/
lemma apiRequest_ok_iff (ep : String) (hdr : Option String) (status : Nat)
    (body : Option Json) :
    exceptOk (apiRequest ep hdr (.resp status body)) = true
      ↔ (respOk status = true ∧ body.isSome = true) := by
  unfold apiRequest
  rcases body with _ | data
  · simp [exceptOk]
  · by_cases hok : respOk status = true
    · simp [hok, exceptOk]
    · rcases hdet : jsDetailProp data with _ | v
      · simp [hok, hdet, exceptOk]
      · by_cases htr : jsTruthy v = true <;> simp [hok, hdet, htr, exceptOk]

/-- A request sent with a stored token always carries the bearer header. -/
lemma performRequest_sent_with_token {U : Type} (decode : Option Json → Option U)
    (ep m t : String) (net : Transport) :
    (performRequest ep m decode true (some t) net).sent
      = some ⟨ep, m, "application/json", some ("Bearer " ++ t)⟩ := by
  unfold performRequest handleResponse
  rcases net with _ | _ | ⟨status, body⟩ <;> simp
  split
  · rcases hdec : decode body with _ | u <;> simp [hdec]
  · rcases hdet : decodeDetail body with _ | d <;> simp [hdet]

end NutClient

namespace NutClient

/-- Claim C1: a call made with the auth-required flag while no bearer
token is stored returns the not-authenticated error and hands nothing to
URLSession: the request function reaches its error branch before any
send. -/
theorem c1_auth_required_without_token_fails_without_send {U : Type}
    (decode : Option Json → Option U) (endpoint method : String)
    (net : Transport) :
    (performRequest endpoint method decode true none net).result
        = .error (.network .notAuthenticated)
      ∧ (performRequest endpoint method decode true none net).sent = none :=
  ⟨rfl, rfl⟩

/-- Claim C3 counterexample: uploadImage receives a response with status
201 and a perfectly decodable body, yet fails with serverError 201, so a
201 status is not always treated as success by the client. -/
theorem c3_counterexample_upload_rejects_201 :
    (201 = 200 ∨ 201 = 201)
      ∧ (uploadImage (some "t") (.http 201 (some (.obj [("url", .str "u")])))).result
          = .error (.network (.serverError 201)) :=
  ⟨.inr rfl, rfl⟩

/-- Claim C3 amended: the generic Swift request layer succeeds exactly on
status 200 or 201 with a body decoding to the expected shape; uploadImage
succeeds exactly on status 200 with a body decoding as a string map; the
React Native apiRequest succeeds exactly on an ok status (200..299) with
a JSON-parsable body. -/
theorem c3_amended_success_criteria :
    (∀ {U : Type} (decode : Option Json → Option U) (ep m : String)
        (status : Nat) (body : Option Json),
        exceptOk (performRequest ep m decode false none (.http status body)).result = true
          ↔ ((status = 200 ∨ status = 201) ∧ (decode body).isSome = true))
    ∧ (∀ {U : Type} (decode : Option Json → Option U) (ep m t : String)
        (status : Nat) (body : Option Json),
        exceptOk (performRequest ep m decode true (some t) (.http status body)).result = true
          ↔ ((status = 200 ∨ status = 201) ∧ (decode body).isSome = true))
    ∧ (∀ (t : String) (status : Nat) (body : Option Json),
        exceptOk (uploadImage (some t) (.http status body)).result = true
          ↔ (status = 200 ∧ (decodeStringMap body).isSome = true))
    ∧ (∀ (ep : String) (hdr : Option String) (status : Nat) (body : Option Json),
        exceptOk (apiRequest ep hdr (.resp status body)) = true
          ↔ (respOk status = true ∧ body.isSome = true)) := by
  refine ⟨?_, ?_, ?_, ?_⟩
  · intro U decode ep m status body
    exact handleResponse_ok_iff decode
      ⟨ep, m, "application/json", none⟩ status body
  · intro U decode ep m t status body
    exact handleResponse_ok_iff decode
      ⟨ep, m, "application/json", some ("Bearer " ++ t)⟩ status body
  · intro t status body
    exact uploadImage_ok_iff t status body
  · intro ep hdr status body
    exact apiRequest_ok_iff ep hdr status body

/-- Claim C6: whenever the GET /auth/me call fails for any reason, the
client performs an implicit logout: token cleared, flag false, user
cleared. -/
theorem c6_failed_me_call_logs_out (meNet : Transport) (s : NMState)
    (h : exceptOk (performRequest "/auth/me" "GET" decodeUser true s.authToken meNet).result = false) :
    (getCurrentUser meNet s).authToken = none
      ∧ (getCurrentUser meNet s).isAuthenticated = false
      ∧ (getCurrentUser meNet s).currentUser = none := by
  unfold getCurrentUser
  rcases hres : (performRequest "/auth/me" "GET" decodeUser true s.authToken meNet).result with e | u
  · simp [hres, logout]
  · rw [hres] at h
    simp [exceptOk] at h

/-- Witness for C6 at a concrete input: a transport failure on /auth/me
clears the whole credential state. -/
theorem c6_witness :
    exceptOk (performRequest "/auth/me" "GET" decodeUser true
        (NMState.authToken ⟨some "t", true, none, none, false⟩) Transport.throws).result = false
      ∧ ((getCurrentUser .throws ⟨some "t", true, none, none, false⟩).authToken = none
        ∧ (getCurrentUser .throws ⟨some "t", true, none, none, false⟩).isAuthenticated = false
        ∧ (getCurrentUser .throws ⟨some "t", true, none, none, false⟩).currentUser = none) :=
  ⟨rfl, c6_failed_me_call_logs_out .throws ⟨some "t", true, none, none, false⟩ rfl⟩

/-- Claim C8: a food-log list response of the empty JSON array leaves the
screen with an empty list, zero total calories and zero meals. -/
theorem c8_empty_response_zero_summary (username dateString token : String)
    (s : FoodLogScreenState) :
    (loadFoodLogs username dateString token (.resp 200 (some (.arr []))) s).foodLogs = .arr []
      ∧ totalCalories (loadFoodLogs username dateString token (.resp 200 (some (.arr []))) s).foodLogs = some 0
      ∧ mealCount (loadFoodLogs username dateString token (.resp 200 (some (.arr []))) s).foodLogs = some 0 :=
  ⟨rfl, rfl, rfl⟩

/-- Claim C10: uploadImage answers a 200 response whose string-map body
lacks the url key with the empty string rather than an error, and it
reports an error only for a non-200 status or a body that does not decode
as a string map. -/
theorem c10_upload_missing_url_empty_string (t : String) (status : Nat)
    (body : Option Json) :
    (∀ m, decodeStringMap body = some m → lookupStr m "url" = none →
        status = 200 → (uploadImage (some t) (.http status body)).result = .ok "")
    ∧ (exceptOk (uploadImage (some t) (.http status body)).result = false →
        status ≠ 200 ∨ decodeStringMap body = none) := by
  constructor
  · intro m hm hurl hs
    subst hs
    unfold uploadImage
    simp [hm, hurl]
  · intro herr
    by_cases hs : status = 200
    · subst hs
      rcases hdec : decodeStringMap body with _ | m
      · exact .inr rfl
      · unfold uploadImage at herr
        simp [hdec, exceptOk] at herr
    · exact .inl hs

/-- Witness for C10 at a concrete input: a 200 body with only a foreign
key yields the empty string. -/
theorem c10_witness :
    decodeStringMap (some (.obj [("other", .str "x")])) = some [("other", "x")]
      ∧ lookupStr [("other", "x")] "url" = none
      ∧ (uploadImage (some "tok") (.http 200 (some (.obj [("other", .str "x")])))).result = .ok "" :=
  ⟨rfl, rfl,
    (c10_upload_missing_url_empty_string "tok" 200 (some (.obj [("other", .str "x")]))).1
      [("other", "x")] rfl rfl rfl⟩

/-- jsToString on a JSON string is that string. -/
lemma jsToString_str (s : String) : jsToString (.str s) = s := by
  simp [jsToString]

/-- Claim C2 counterexample: in the React Native client a 500 response
whose JSON body has no detail field surfaces the constant message
API request failed, which contains no digit at all and hence does not
encode the status code. -/
theorem c2_counterexample_rn_fallback_drops_status :
    apiRequest "/x" none (.resp 500 (some (.obj [])))
        = .error (.thrown "API request failed")
      ∧ ("API request failed".toList.any (fun c => c.isDigit)) = false :=
  ⟨rfl, rfl⟩

/-- Claim C2 amended: the Swift client surfaces a decoded detail string
verbatim and otherwise a server-error message carrying the numeric
status; the React Native client surfaces a non-empty detail string
verbatim, but without a detail field it surfaces the fixed message
API request failed, which does not carry the status code. -/
theorem c2_amended_error_surface {U : Type} (decode : Option Json → Option U)
    (ep m : String) (hdr : Option String) (status : Nat)
    (body : Option Json) (data : Json) (x : String)
    (hns : ¬(status = 200 ∨ status = 201)) (hok : respOk status = false) :
    (decodeDetail body = some x →
        (performRequest ep m decode false none (.http status body)).result
            = .error (.network (.apiError x))
          ∧ SwiftError.localizedDescription (.network (.apiError x)) = x)
    ∧ (decodeDetail body = none →
        (performRequest ep m decode false none (.http status body)).result
            = .error (.network (.serverError status))
          ∧ SwiftError.localizedDescription (.network (.serverError status))
              = "Server error: " ++ toString status)
    ∧ (jsDetailProp data = some (.str x) → x ≠ "" →
        apiRequest ep hdr (.resp status (some data)) = .error (.thrown x))
    ∧ (jsDetailProp data = none →
        apiRequest ep hdr (.resp status (some data))
          = .error (.thrown "API request failed")) := by
  refine ⟨?_, ?_, ?_, ?_⟩
  · intro hdet
    refine ⟨?_, rfl⟩
    show (handleResponse decode ⟨ep, m, "application/json", none⟩ (.http status body)).result
      = .error (.network (.apiError x))
    unfold handleResponse
    simp [if_neg hns, hdet]
  · intro hdet
    refine ⟨?_, rfl⟩
    show (handleResponse decode ⟨ep, m, "application/json", none⟩ (.http status body)).result
      = .error (.network (.serverError status))
    unfold handleResponse
    simp [if_neg hns, hdet]
  · intro hdet hx
    unfold apiRequest
    have htr : jsTruthy (.str x) = true := by
      simp [jsTruthy, hx]
    simp [hok, hdet, htr, jsToString_str]
  · intro hdet
    unfold apiRequest
    simp [hok, hdet]

/-- Witness for C2 at concrete inputs: a 404 with detail Nope surfaces
Nope in both clients. -/
theorem c2_witness :
    ¬(404 = 200 ∨ 404 = 201)
      ∧ respOk 404 = false
      ∧ (performRequest "/e" "GET" decodeToken false none
            (.http 404 (some (.obj [("detail", .str "Nope")])))).result
          = .error (.network (.apiError "Nope"))
      ∧ apiRequest "/e" none (.resp 404 (some (.obj [("detail", .str "Nope")])))
          = .error (.thrown "Nope") :=
  ⟨by decide, rfl,
    ((c2_amended_error_surface decodeToken "/e" "GET" none 404
        (some (.obj [("detail", .str "Nope")])) (.obj [("detail", .str "Nope")])
        "Nope" (by decide) rfl).1 rfl).1,
    (c2_amended_error_surface decodeToken "/e" "GET" none 404
        (some (.obj [("detail", .str "Nope")])) (.obj [("detail", .str "Nope")])
        "Nope" (by decide) rfl).2.2.1 rfl (by decide)⟩

/-- A transport whose response decodes as a full User, used to exercise
the happy path of GET /auth/me. -/
def meOkNet : Transport :=
  .http 200 (some (.obj
    [("id", .num 1), ("username", .str "alice"),
     ("email", .str "alice@example.com"), ("is_active", .bool true),
     ("created_at", .str "2024-01-01T00:00:00")]))

/-- Claim C4: a successful login stores the returned token so that every
subsequent auth-required call attaches Authorization Bearer t, and after
a logout the same call fails not-authenticated without being sent. -/
theorem c4_login_logout_round_trip (s s1 : NMState) (meNet : Transport)
    (t ty : String)
    (hme : exceptOk (performRequest "/auth/me" "GET" decodeUser true (some t) meNet).result = true)
    (hs1 : s1 = login "alice" "pw"
        (.http 200 (some (.obj [("access_token", .str t), ("token_type", .str ty)])))
        meNet s) :
    s1.authToken = some t
    ∧ (∀ {U : Type} (decode : Option Json → Option U) (ep m : String)
        (net : Transport),
        (performRequest ep m decode true s1.authToken net).sent
          = some ⟨ep, m, "application/json", some ("Bearer " ++ t)⟩)
    ∧ (∀ {U : Type} (decode : Option Json → Option U) (ep m : String)
        (net : Transport),
        (performRequest ep m decode true (logout s1).authToken net).result
            = .error (.network .notAuthenticated)
          ∧ (performRequest ep m decode true (logout s1).authToken net).sent = none) := by
  have hkey := getCurrentUser_ok_fields meNet
    { s with isLoading := true, errorMessage := none,
             authToken := some t, isAuthenticated := true } hme
  have hlogin_eq : login "alice" "pw"
      (.http 200 (some (.obj [("access_token", .str t), ("token_type", .str ty)])))
      meNet s
      = { getCurrentUser meNet
            { s with isLoading := true, errorMessage := none,
                     authToken := some t, isAuthenticated := true }
          with isLoading := false } := rfl
  have htok : s1.authToken = some t := by
    rw [hs1, hlogin_eq]
    simpa using hkey.1
  refine ⟨htok, ?_, ?_⟩
  · intro U decode ep m net
    rw [htok]
    exact performRequest_sent_with_token decode ep m t net
  · intro U decode ep m net
    have hlo : (logout s1).authToken = none := rfl
    rw [hlo]
    exact ⟨rfl, rfl⟩

/-- Witness for C4 at concrete inputs: logging in against a 200 token
response stores t1, which the auth header then carries. -/
theorem c4_witness :
    exceptOk (performRequest "/auth/me" "GET" decodeUser true (some "t1") meOkNet).result = true
      ∧ (login "alice" "pw"
            (.http 200 (some (.obj [("access_token", .str "t1"), ("token_type", .str "bearer")])))
            meOkNet ⟨none, false, none, none, false⟩).authToken = some "t1" :=
  ⟨rfl,
    (c4_login_logout_round_trip ⟨none, false, none, none, false⟩ _ meOkNet
      "t1" "bearer" rfl rfl).1⟩

/-- Claim C7: a login whose POST /auth/login returns access_token t1 and
token_type bearer leaves the stored token exactly t1 and the flag true,
provided the follow-up GET /auth/me it performs succeeds. -/
theorem c7_login_stores_token (s s1 : NMState) (meNet : Transport)
    (hme : exceptOk (performRequest "/auth/me" "GET" decodeUser true (some "t1") meNet).result = true)
    (hs1 : s1 = login "alice" "pw"
        (.http 200 (some (.obj [("access_token", .str "t1"), ("token_type", .str "bearer")])))
        meNet s) :
    s1.authToken = some "t1" ∧ s1.isAuthenticated = true := by
  have hkey := getCurrentUser_ok_fields meNet
    { s with isLoading := true, errorMessage := none,
             authToken := some "t1", isAuthenticated := true } hme
  have hlogin_eq : login "alice" "pw"
      (.http 200 (some (.obj [("access_token", .str "t1"), ("token_type", .str "bearer")])))
      meNet s
      = { getCurrentUser meNet
            { s with isLoading := true, errorMessage := none,
                     authToken := some "t1", isAuthenticated := true }
          with isLoading := false } := rfl
  rw [hs1, hlogin_eq]
  constructor
  · simpa using hkey.1
  · simpa using hkey.2

/-- Witness for C7 at concrete inputs. -/
theorem c7_witness :
    exceptOk (performRequest "/auth/me" "GET" decodeUser true (some "t1") meOkNet).result = true
      ∧ ((login "alice" "pw"
            (.http 200 (some (.obj [("access_token", .str "t1"), ("token_type", .str "bearer")])))
            meOkNet ⟨none, false, none, none, false⟩).authToken = some "t1"
        ∧ (login "alice" "pw"
            (.http 200 (some (.obj [("access_token", .str "t1"), ("token_type", .str "bearer")])))
            meOkNet ⟨none, false, none, none, false⟩).isAuthenticated = true) :=
  ⟨rfl, c7_login_stores_token ⟨none, false, none, none, false⟩ _ meOkNet rfl rfl⟩

/-- The 401 Token-expired response of the C5 scenario, as seen by fetch. -/
def expiredResp : JSOutcome :=
  .resp 401 (some (.obj [("detail", .str "Token expired")]))

/-- The same response as seen by URLSession. -/
def expiredHTTP : Transport :=
  .http 401 (some (.obj [("detail", .str "Token expired")]))

/-- The request layer turns the expired-token response into an error
carrying exactly the detail message. -/
lemma apiRequest_token_expired (ep : String) (hdr : Option String) :
    apiRequest ep hdr expiredResp = .error (.thrown "Token expired") := by
  have h1 : respOk 401 = false := rfl
  have h2 : jsDetailProp (.obj [("detail", .str "Token expired")])
      = some (.str "Token expired") := rfl
  have h3 : jsTruthy (.str "Token expired") = true := rfl
  unfold apiRequest expiredResp
  simp [h1, h2, h3, jsToString_str]

/-- Claim C5 counterexample: in the React Native meal screen the alert
shown for the 401 Token-expired save failure carries the fixed message
Failed to save meal, not Token expired. -/
theorem c5_counterexample_rn_alert_is_generic :
    (saveMeal "tok" "lunch" ⟨none, "burger", some (.obj []), true⟩ expiredResp).2
        = some ⟨"Error", "Failed to save meal"⟩
      ∧ "Failed to save meal" ≠ "Token expired" := by
  constructor
  · show (match apiRequest "/food-logs" (some ("Bearer " ++ "tok")) expiredResp with
      | .ok _ => ((⟨none, "", none, false⟩ : MealScreenState),
          some (⟨"Success", "Meal saved to your food log!"⟩ : AlertMsg))
      | .error _ => (⟨none, "burger", some (.obj []), true⟩,
          some ⟨"Error", "Failed to save meal"⟩)).2
      = some ⟨"Error", "Failed to save meal"⟩
    rw [apiRequest_token_expired]
  · decide

/-- Claim C5 amended: the POST /food-logs failure on the expired token
produces a request-layer error carrying exactly Token expired in both
clients, and the failed save leaves the local screen state unchanged; the
meal-save UI however surfaces the message Failed to save meal (React
Native) or Failed to save meal: Token expired (SwiftUI), not the bare
detail string. -/
theorem c5_amended_expired_token_save (tok mealType t : String)
    (st : MealScreenState) (s : NMState)
    (hm : st.mealResult.isSome = true) (hu : s.currentUser.isSome = true)
    (ht : s.authToken = some t) :
    apiRequest "/food-logs" (some ("Bearer " ++ tok)) expiredResp
        = .error (.thrown "Token expired")
    ∧ (saveMeal tok mealType st expiredResp).1 = st
    ∧ (saveMeal tok mealType st expiredResp).2
        = some ⟨"Error", "Failed to save meal"⟩
    ∧ saveFoodLog expiredHTTP s = .error (.network (.apiError "Token expired"))
    ∧ SwiftError.localizedDescription (.network (.apiError "Token expired"))
        = "Token expired"
    ∧ swiftSaveMealErrorMessage (.network (.apiError "Token expired"))
        = "Failed to save meal: Token expired" := by
  rcases hmr : st.mealResult with _ | r
  · rw [hmr] at hm
    simp at hm
  · rcases hcu : s.currentUser with _ | u
    · rw [hcu] at hu
      simp at hu
    · have hsave : (performRequest "/food-logs" "POST" decodeSaveFoodLogResponse
          true (some t) expiredHTTP).result
          = .error (.network (.apiError "Token expired")) := rfl
      refine ⟨apiRequest_token_expired _ _, ?_, ?_, ?_, rfl, rfl⟩
      · unfold saveMeal
        rw [hmr, apiRequest_token_expired]
      · unfold saveMeal
        rw [hmr, apiRequest_token_expired]
      · unfold saveFoodLog
        rw [hcu, ht]
        exact hsave

/-- Witness for C5 amended at concrete inputs. -/
theorem c5_witness :
    (MealScreenState.mealResult ⟨none, "burger", some (.obj []), true⟩).isSome = true
      ∧ (NMState.currentUser ⟨some "t", true, some ⟨1, "alice", "a", true, "d"⟩, none, false⟩).isSome = true
      ∧ (saveMeal "t" "lunch" ⟨none, "burger", some (.obj []), true⟩ expiredResp).1
          = ⟨none, "burger", some (.obj []), true⟩
      ∧ saveFoodLog expiredHTTP ⟨some "t", true, some ⟨1, "alice", "a", true, "d"⟩, none, false⟩
          = .error (.network (.apiError "Token expired")) :=
  ⟨rfl, rfl,
    (c5_amended_expired_token_save "t" "lunch" "t"
      ⟨none, "burger", some (.obj []), true⟩
      ⟨some "t", true, some ⟨1, "alice", "a", true, "d"⟩, none, false⟩
      rfl rfl rfl).2.1,
    (c5_amended_expired_token_save "t" "lunch" "t"
      ⟨none, "burger", some (.obj []), true⟩
      ⟨some "t", true, some ⟨1, "alice", "a", true, "d"⟩, none, false⟩
      rfl rfl rfl).2.2.2.1⟩

/-- The NetworkManager credential invariant: the published flag agrees
with the presence of a stored token. -/
def authOk (s : NMState) : Prop :=
  s.isAuthenticated = s.authToken.isSome

lemma authOk_logout (s : NMState) : authOk (logout s) := rfl

lemma authOk_getCurrentUser (net : Transport) (s : NMState) (h : authOk s) :
    authOk (getCurrentUser net s) := by
  unfold getCurrentUser
  rcases hres : (performRequest "/auth/me" "GET" decodeUser true s.authToken net).result with e | u
  · exact authOk_logout s
  · exact h

lemma authOk_checkAuthStatus (net : Transport) (s : NMState) :
    authOk (checkAuthStatus net s) := by
  have hbase : authOk { s with isAuthenticated := s.authToken.isSome } := rfl
  have heq : checkAuthStatus net s
      = if ({ s with isAuthenticated := s.authToken.isSome } : NMState).isAuthenticated
        then getCurrentUser net { s with isAuthenticated := s.authToken.isSome }
        else { s with isAuthenticated := s.authToken.isSome } := rfl
  rw [heq]
  split
  · exact authOk_getCurrentUser net _ hbase
  · exact hbase

lemma authOk_login (u p : String) (ln mn : Transport) (s : NMState)
    (h : authOk s) : authOk (login u p ln mn s) := by
  have heq : login u p ln mn s
      = match (performRequest "/auth/login" "POST" decodeToken false s.authToken ln).result with
        | .ok tok =>
            { getCurrentUser mn
                { s with isLoading := true, errorMessage := none,
                         authToken := some tok.accessToken, isAuthenticated := true }
              with isLoading := false }
        | .error e =>
            { s with errorMessage := some e.localizedDescription, isLoading := false } := rfl
  rw [heq]
  rcases hres : (performRequest "/auth/login" "POST" decodeToken false s.authToken ln).result with e | tok
  · exact h
  · exact authOk_getCurrentUser mn
      { s with isLoading := true, errorMessage := none,
               authToken := some tok.accessToken, isAuthenticated := true } rfl

lemma authOk_registerUser (u em p : String) (rn ln mn : Transport)
    (s : NMState) (h : authOk s) : authOk (registerUser u em p rn ln mn s) := by
  have heq : registerUser u em p rn ln mn s
      = match (performRequest "/auth/register" "POST" decodeUser false s.authToken rn).result with
        | .ok _ =>
            { login u p ln mn { s with isLoading := true, errorMessage := none }
              with isLoading := false }
        | .error e =>
            { s with errorMessage := some e.localizedDescription, isLoading := false } := rfl
  rw [heq]
  rcases hres : (performRequest "/auth/register" "POST" decodeUser false s.authToken rn).result with e | usr
  · exact h
  · exact authOk_login u p ln mn { s with isLoading := true, errorMessage := none } h

/-- Claim C9: after initialization and after every completed operation,
isAuthenticated holds exactly when a bearer token is stored. -/
theorem c9_flag_iff_token :
    (∀ (storedToken : Option String) (meNet : Transport),
        authOk (initState storedToken meNet))
    ∧ (∀ (meNet : Transport) (s : NMState), authOk (checkAuthStatus meNet s))
    ∧ (∀ (u p : String) (ln mn : Transport) (s : NMState),
        authOk s → authOk (login u p ln mn s))
    ∧ (∀ (u em p : String) (rn ln mn : Transport) (s : NMState),
        authOk s → authOk (registerUser u em p rn ln mn s))
    ∧ (∀ s : NMState, authOk (logout s))
    ∧ (∀ (net : Transport) (s : NMState),
        authOk s → authOk (getCurrentUser net s)) :=
  ⟨fun tok net => authOk_checkAuthStatus net ⟨tok, false, none, none, false⟩,
   authOk_checkAuthStatus,
   authOk_login,
   authOk_registerUser,
   authOk_logout,
   authOk_getCurrentUser⟩

/-- Witness for C9 at concrete inputs: a failing login against an empty
initial state preserves the invariant. -/
theorem c9_witness :
    authOk (⟨none, false, none, none, false⟩ : NMState)
      ∧ authOk (login "alice" "pw" .throws .throws ⟨none, false, none, none, false⟩) :=
  ⟨rfl, c9_flag_iff_token.2.2.1 "alice" "pw" .throws .throws
      ⟨none, false, none, none, false⟩ rfl⟩

end NutClient
